import Mathlib

/-!
Formal model of the Chatbot-Samator conversation orchestration and order
aggregation engine, shallowly embedded from the repository sources
(src/models/order_state.py, src/agents/order_agent.py,
src/core/orchestrator.py, orches_2.py, src/core/intent_classifier.py,
src/core/conversation_manager.py).

Conventions of the embedding:
* Python Optional values become Option; Python truthiness of a value v
  (used by the sources in conditions such as "if not line.quantity") is
  modelled explicitly: None, empty string and 0 are falsy.
* External collaborators (LLM, semantic search, database) are passed in as
  explicit parameters: semantic-search results as a list of matches, the
  database as an outcome value, LLM replies as parsed outcomes.
* The agents still read and write an order-level delivery_date attribute
  that the pydantic v2 OrderState model no longer declares (its docstring
  says the date moved into each OrderLine).  pydantic v2 rejects both: the
  assignment raises ValueError and the read raises AttributeError, in both
  cases uncaught.  The embedding records these raises in explicit outcome
  components instead of pretending the store or the read succeeds.
* All definitions are executable so concrete scenarios evaluate by decide.
-/

namespace Samator

/-- Python truthiness of an optional string: None and the empty string are
falsy, any other string is truthy. -/
def truthyS : Option String → Bool
  | none => false
  | some s => !s.isEmpty

/-- Python truthiness of an optional integer: None and 0 are falsy. -/
def truthyI : Option Int → Bool
  | none => false
  | some n => n != 0

/-- Substring containment, modelling the Python expression pat in s. -/
def strContains (s pat : String) : Bool :=
  decide (pat.data <:+: s.data)

/-- ASCII lower-casing of one character, modelling Python str.lower on the
ASCII alphabet (all keywords compared by the sources are ASCII). -/
def asciiLowerChar (c : Char) : Char :=
  if 65 ≤ c.toNat && c.toNat ≤ 90 then Char.ofNat (c.toNat + 32) else c

/-- ASCII upper-casing of one character, modelling Python str.upper. -/
def asciiUpperChar (c : Char) : Char :=
  if 97 ≤ c.toNat && c.toNat ≤ 122 then Char.ofNat (c.toNat - 32) else c

/-- Python str.lower (ASCII fragment). -/
def strLower (s : String) : String := String.mk (s.data.map asciiLowerChar)

/-- Python str.upper (ASCII fragment). -/
def strUpper (s : String) : String := String.mk (s.data.map asciiUpperChar)

/-- Python str.strip: remove leading and trailing whitespace. -/
def strTrim (s : String) : String :=
  String.mk (((s.data.dropWhile Char.isWhitespace).reverse.dropWhile
    Char.isWhitespace).reverse)

/-- Python str.startswith. -/
def strStarts (s t : String) : Bool := decide (t.data <+: s.data)

/-- Python str.endswith. -/
def strEnds (s t : String) : Bool := decide (t.data <:+ s.data)

/-- Apply f to the first element of a list, modelling the in-place mutation
of order_lines[0] that the agents perform. -/
def updateHead (f : α → α) : List α → List α
  | [] => []
  | a :: as => f a :: as

/-- Python or-chain a or b on optional strings: returns a when a is truthy,
otherwise b (even when b is falsy), as in best.get(uom) or best.get(unit)
or entities.unit in order_agent._resolve_product. -/
def pyOrS (a b : Option String) : Option String :=
  if truthyS a then a else b

/-- Zero-pad a natural number to four digits, modelling the Python format
specifier 04d used for the daily order sequence. -/
def pad4 (n : Nat) : String :=
  let s := toString n
  if s.length < 4 then String.mk (List.replicate (4 - s.length) '0') ++ s else s

/-! ## Data model: src/models/order_state.py -/

/-- One product line of the order (class OrderLine). -/
structure OrderLine where
  partnum : Option String := none
  product_name : Option String := none
  quantity : Option Int := none
  unit : Option String := none
  delivery_date : Option String := none
deriving Repr, DecidableEq

/-- One structured entry of missing_fields, a dict with keys line_index
(None for order-level gaps) and field. -/
structure MissingField where
  line_index : Option Nat
  field : String
deriving Repr, DecidableEq

/-- The order aggregate (class OrderState).  The pydantic v2 model
declares no order-level delivery_date field (the class docstring says the
date lives in each OrderLine); the agents nevertheless attempt
order_state.delivery_date = ..., which pydantic v2 rejects with an
uncaught ValueError, and read it in receipts, which raises AttributeError.
No constructible value therefore ever carries data in the delivery_date
component: it is kept so that statements can say exactly that (see the
round-trip theorem), and model_dump (toDict below) never emits it. -/
structure OrderState where
  intent : String := "ORDER"
  customer_name : Option String := none
  customer_company : Option String := none
  order_lines : List OrderLine := [{}]
  is_complete : Bool := false
  missing_fields : List MissingField := []
  order_status : String := "new"
  delivery_date : Option String := none
deriving Repr, DecidableEq

/-- A freshly constructed aggregate, OrderState(): one empty line, status
new, is_complete False, missing_fields empty.  conversation_manager's
reset_order_state stores exactly this value. -/
def OrderState.init : OrderState := {}

/-- Derived index of the line currently being collected: the line_index of
the first line-level entry of missing_fields, defaulting to 0
(property OrderState.active_line_index). -/
def OrderState.active_line_index (s : OrderState) : Nat :=
  match s.missing_fields.find? (fun m => m.line_index.isSome) with
  | some m => m.line_index.getD 0
  | none => 0

/-- True when a line carries any (truthy) data, as tested by the
has_partial_data expression of update_missing_fields. -/
def OrderLine.hasData (l : OrderLine) : Bool :=
  truthyS l.product_name || truthyI l.quantity || truthyS l.unit ||
    truthyS l.delivery_date

/-- Recompute missing_fields, is_complete and order_status
(OrderState.update_missing_fields).  Order-level gaps come first, then the
per-line gaps in field order product_name, quantity, unit, delivery_date. -/
def OrderState.updateMissingFields (s : OrderState) : OrderState :=
  let missing : List MissingField :=
    (if truthyS s.customer_name then [] else [⟨none, "customer_name"⟩]) ++
    (if truthyS s.customer_company then [] else [⟨none, "customer_company"⟩]) ++
    (s.order_lines.enum.flatMap fun p =>
      (if truthyS p.2.product_name then [] else [⟨some p.1, "product_name"⟩]) ++
      (if truthyI p.2.quantity then [] else [⟨some p.1, "quantity"⟩]) ++
      (if truthyS p.2.unit then [] else [⟨some p.1, "unit"⟩]) ++
      (if truthyS p.2.delivery_date then [] else [⟨some p.1, "delivery_date"⟩]))
  let has_partial_data : Bool :=
    truthyS s.customer_name || truthyS s.customer_company ||
      s.order_lines.any OrderLine.hasData
  let is_complete := missing.isEmpty
  let status :=
    if is_complete && !s.order_lines.isEmpty then
      (if s.order_status = "new" || s.order_status = "in_progress"
        then "in_progress" else s.order_status)
    else if has_partial_data then
      (if s.order_status = "new" then "in_progress" else s.order_status)
    else "new"
  { s with missing_fields := missing, is_complete := is_complete,
           order_status := status }

/-! ## Serialization: OrderState.to_dict / OrderState.from_dict -/

/-- Representation of the missing_fields entry of a serialized aggregate:
either the current structured list of dicts, or the legacy flat list of
strings that _migrate_missing_fields converts. -/
inductive MissingRepr
  | structured (entries : List MissingField)
  | flat (entries : List String)
deriving Repr, DecidableEq

/-- The dictionary produced by to_dict and consumed by from_dict.  The
delivery_date component models the legacy top-level delivery_date key
(none = key absent or None); active_line_index models the derived key that
to_dict injects and from_dict pops. -/
structure OrderStateDict where
  intent : String
  customer_name : Option String
  customer_company : Option String
  order_lines : List OrderLine
  is_complete : Bool
  missing_fields : MissingRepr
  order_status : String
  delivery_date : Option String := none
  active_line_index : Option Nat := none
deriving Repr, DecidableEq

/-- OrderState.to_dict: model_dump of the declared pydantic fields plus the
derived active_line_index.  The dynamically assigned order-level
delivery_date attribute is not a declared field, so model_dump never emits
a top-level delivery_date key. -/
def toDict (s : OrderState) : OrderStateDict where
  intent := s.intent
  customer_name := s.customer_name
  customer_company := s.customer_company
  order_lines := s.order_lines
  is_complete := s.is_complete
  missing_fields := .structured s.missing_fields
  order_status := s.order_status
  delivery_date := none
  active_line_index := some s.active_line_index

/-- Digits of a decimal string, with value accumulation. -/
def natOfDigits (l : List Char) : Nat :=
  l.foldl (fun n c => 10 * n + (c.toNat - 48)) 0

/-- Anchored match of the regular expression order_lines\[(\d+)\]\.(.+)
used by _migrate_missing_fields: returns the captured line index and field
name when the entry matches. -/
def parseLineEntry (entry : String) : Option MissingField :=
  let cs := entry.data
  let pre := "order_lines[".data
  if pre.isPrefixOf cs then
    let rest := cs.drop pre.length
    let digits := rest.takeWhile Char.isDigit
    let rest2 := rest.drop digits.length
    if digits.isEmpty then none
    else
      match rest2 with
      | ']' :: '.' :: tail =>
        if tail.isEmpty then none
        else some ⟨some (natOfDigits digits), String.mk tail⟩
      | _ => none
  else none

/-- _migrate_missing_fields: convert the legacy flat string format to the
structured dicts; entries that mention order_lines[ but fail the anchored
regular expression are dropped. -/
def migrateMissingFields (flat : List String) : List MissingField :=
  flat.flatMap fun entry =>
    if strContains entry "order_lines[" then
      match parseLineEntry entry with
      | some mf => [mf]
      | none => []
    else [⟨none, entry⟩]

/-- OrderState.from_dict: push a truthy legacy top-level delivery_date into
line 0 when line 0 has no date yet, migrate legacy flat missing_fields,
drop the derived active_line_index, and rebuild the model.  The rebuilt
value carries no order-level delivery_date attribute. -/
def fromDict (d : OrderStateDict) : OrderState :=
  let lines :=
    match d.delivery_date with
    | none => d.order_lines
    | some dd =>
      if dd.isEmpty then d.order_lines
      else
        match d.order_lines with
        | [] => []
        | l0 :: rest =>
          if truthyS l0.delivery_date then l0 :: rest
          else { l0 with delivery_date := some dd } :: rest
  let missing :=
    match d.missing_fields with
    | .structured es => es
    | .flat [] => []
    | .flat es => migrateMissingFields es
  { intent := d.intent
    customer_name := d.customer_name
    customer_company := d.customer_company
    order_lines := lines
    is_complete := d.is_complete
    missing_fields := missing
    order_status := d.order_status
    delivery_date := none }

/-! ## Dates and _validate_delivery_date (order_agent.py / orchestrator.py) -/

/-- A calendar date in the proleptic Gregorian calendar, as handled by
datetime.date. -/
structure Date where
  year : Int
  month : Int
  day : Int
deriving Repr, DecidableEq

/-- Gregorian leap-year rule. -/
def isLeapYear (y : Int) : Bool :=
  (y % 4 == 0 && y % 100 != 0) || y % 400 == 0

/-- Number of days in a month, as validated by datetime.strptime. -/
def daysInMonth (y m : Int) : Int :=
  if m == 2 then (if isLeapYear y then 29 else 28)
  else if m == 4 || m == 6 || m == 9 || m == 11 then 30
  else 31

/-- Day number of a Gregorian date counted from the Unix epoch 1970-01-01
(the standard civil-from-days conversion); subtraction of two day numbers
models the datetime.date subtraction (today - delivery_date_obj).days. -/
def daysFromCivil (y m d : Int) : Int :=
  let y := if m ≤ 2 then y - 1 else y
  let era := (if 0 ≤ y then y else y - 399) / 400
  let yoe := y - era * 400
  let mp := (m + 9) % 12
  let doy := (153 * mp + 2) / 5 + d - 1
  let doe := yoe * 365 + yoe / 4 - yoe / 100 + doy
  era * 146097 + doe - 719468

/-- Day number of a Date. -/
def dateOrd (d : Date) : Int := daysFromCivil d.year d.month d.day

/-- Python datetime.weekday: Monday = 0 ... Sunday = 6 (1970-01-01 was a
Thursday, weekday 3). -/
def pyWeekday (d : Date) : Int := (dateOrd d + 3) % 7

/-- Parse a YYYY-MM-DD string the way datetime.strptime with format
%Y-%m-%d does: three dash-separated decimal fields (year up to four
digits, month and day up to two), validated against the calendar. -/
def parseYMD (s : String) : Option Date :=
  match splitDash s.data with
  | [ys, ms, ds] =>
    if ys ≠ [] && ys.all Char.isDigit && ys.length ≤ 4 &&
       ms ≠ [] && ms.all Char.isDigit && ms.length ≤ 2 &&
       ds ≠ [] && ds.all Char.isDigit && ds.length ≤ 2 then
      let y : Int := natOfDigits ys
      let m : Int := natOfDigits ms
      let d : Int := natOfDigits ds
      if 1 ≤ y && 1 ≤ m && m ≤ 12 && 1 ≤ d && d ≤ daysInMonth y m then
        some ⟨y, m, d⟩
      else none
    else none
  | _ => none
where
  splitDash : List Char → List (List Char)
    | [] => [[]]
    | x :: xs =>
      if x = '-' then [] :: splitDash xs
      else
        match splitDash xs with
        | [] => [[x]]
        | g :: gs => (x :: g) :: gs

/-- Indonesian month names, the month_map of _validate_delivery_date
applied to the strftime %B output. -/
def monthNameID (m : Int) : String :=
  if m == 1 then "Januari" else if m == 2 then "Februari"
  else if m == 3 then "Maret" else if m == 4 then "April"
  else if m == 5 then "Mei" else if m == 6 then "Juni"
  else if m == 7 then "Juli" else if m == 8 then "Agustus"
  else if m == 9 then "September" else if m == 10 then "Oktober"
  else if m == 11 then "November" else "Desember"

/-- Zero-pad to two digits (strftime %d). -/
def pad2 (n : Int) : String :=
  if n < 10 then "0" ++ toString n else toString n

/-- Date formatted as %d %B %Y with Indonesian month names. -/
def formatDateID (d : Date) : String :=
  pad2 d.day ++ " " ++ monthNameID d.month ++ " " ++ toString d.year

/-- _validate_delivery_date on an already parsed date: reject dates
strictly before today (phrasing kemarin / kemarin lusa / N hari yang lalu)
and Sundays; otherwise None.  deliveryStr is the raw input echoed into the
past-date message. -/
def validateDeliveryDate (deliveryStr : String) (delivery today : Date) :
    Option String :=
  if dateOrd delivery < dateOrd today then
    let daysAgo := dateOrd today - dateOrd delivery
    let timeDesc :=
      if daysAgo = 1 then "kemarin"
      else if daysAgo = 2 then "kemarin lusa"
      else toString daysAgo ++ " hari yang lalu"
    some ("Maaf, tanggal " ++ deliveryStr ++ " itu sudah lewat (" ++
      timeDesc ++ "). Untuk tanggal berapa ya pengirimannya?")
  else if pyWeekday delivery = 6 then
    some ("Maaf, tanggal " ++ formatDateID delivery ++
      " itu hari Minggu. Kami tidak melayani pengiriman di hari Minggu. Bisa pilih tanggal lain?")
  else
    none

/-- _validate_delivery_date on the raw string: a strptime failure yields
the invalid-format message, otherwise the parsed date is validated against
today (datetime.now in the Asia/Jakarta timezone, passed explicitly). -/
def validateDeliveryDateStr (deliveryStr : String) (today : Date) :
    Option String :=
  match parseYMD deliveryStr with
  | none =>
    some ("Maaf, format tanggal tidak valid. Mohon berikan tanggal yang jelas (contoh: \x27besok\x27, \x2715 Februari\x27).")
  | some delivery => validateDeliveryDate deliveryStr delivery today

/-! ## Entity application (order_agent._apply_entities and helpers) -/

/-- One semantic- or fuzzy-search match, as consumed by _resolve_product:
a dict with partnum, description and an optional uom or unit key. -/
structure PartMatch where
  partnum : String
  description : String
  uom : Option String := none
  unit : Option String := none
deriving Repr, DecidableEq

/-- The flat extracted-entities object read by order_agent._apply_entities
and the orchestrators (fields e.product_name, e.customer_name,
e.customer_company, e.delivery_date, e.quantity, e.unit). -/
structure ExtractedEntities where
  product_name : Option String := none
  customer_name : Option String := none
  customer_company : Option String := none
  delivery_date : Option String := none
  quantity : Option Int := none
  unit : Option String := none
deriving Repr, DecidableEq

/-- order_agent._resolve_product: run semantic search (the matches list is
the combined semantic-then-fuzzy result, supplied by the collaborator),
append an empty line only when order_lines is empty, then write the
resolved (or raw) product data into order_lines[0]. -/
def resolveProduct (e : ExtractedEntities) (found : List PartMatch)
    (s : OrderState) : OrderState :=
  let lines := if s.order_lines.isEmpty then s.order_lines ++ [({} : OrderLine)]
               else s.order_lines
  let lines2 :=
    match found with
    | best :: _ =>
      updateHead (fun l =>
        { l with partnum := some best.partnum,
                 product_name := some best.description,
                 unit := pyOrS best.uom (pyOrS best.unit e.unit) }) lines
    | [] =>
      updateHead (fun l =>
        { l with product_name := e.product_name, unit := e.unit }) lines
  let lines3 :=
    if truthyI e.quantity then
      updateHead (fun l => { l with quantity := e.quantity }) lines2
    else lines2
  { s with order_lines := lines3 }

/-- How a call to _apply_entities ends: a normal None return (success), a
normal return of the date-validation message, or the uncaught ValueError
that pydantic v2 raises at the order_state.delivery_date assignment. -/
inductive ApplyResult
  | ok
  | validationError (msg : String)
  | raisedValueError
deriving Repr, DecidableEq

/-- order_agent._apply_entities: resolve a product when one was mentioned,
copy order-level customer fields, then handle a delivery date: an invalid
date returns the validation message; a valid date reaches the statement
order_state.delivery_date = e.delivery_date, which raises an uncaught
ValueError (the pydantic v2 model declares no such field), so nothing is
stored and the quantity-unit block below it never runs.  With no (truthy)
date, a bare quantity or unit is written into order_lines[0].  The first
component is the aggregate at return or at the raise point. -/
def applyEntities (e : ExtractedEntities) (found : List PartMatch)
    (today : Date) (s0 : OrderState) : OrderState × ApplyResult :=
  let s1 := if truthyS e.product_name then resolveProduct e found s0 else s0
  let s2 := if truthyS e.customer_name
            then { s1 with customer_name := e.customer_name } else s1
  let s3 := if truthyS e.customer_company
            then { s2 with customer_company := e.customer_company } else s2
  match e.delivery_date with
  | some dd =>
    if dd.isEmpty then applyBareQtyUnit e s3
    else
      match validateDeliveryDateStr dd today with
      | some err => (s3, .validationError err)
      | none => (s3, .raisedValueError)
  | none => applyBareQtyUnit e s3
where
  /-- The trailing quantity-unit-without-product block of _apply_entities:
  when no product was mentioned and at least one line exists, write the
  truthy quantity and unit into order_lines[0]. -/
  applyBareQtyUnit (e : ExtractedEntities) (s : OrderState) :
      OrderState × ApplyResult :=
    if !truthyS e.product_name && !s.order_lines.isEmpty then
      let setQU : OrderLine → OrderLine := fun l =>
        let l1 := if truthyI e.quantity then { l with quantity := e.quantity } else l
        if truthyS e.unit then { l1 with unit := e.unit } else l1
      ({ s with order_lines := updateHead setQU s.order_lines }, .ok)
    else (s, .ok)

/-- The changes dict produced by _extract_order_changes and consumed by
_apply_order_changes. -/
structure OrderChanges where
  customer_name : Option String := none
  customer_company : Option String := none
  delivery_date : Option String := none
  product_name : Option String := none
  quantity : Option Int := none
  unit : Option String := none
deriving Repr, DecidableEq

/-- Result of _apply_order_changes: the aggregate at return or raise, the
validation error when a changed delivery date is invalid (the Python
function then returns an error dict, with earlier field changes already
applied in place), the applied flag, and whether the call died with the
uncaught ValueError of the phantom delivery_date assignment. -/
structure ChangesResult where
  state : OrderState
  error : Option String := none
  applied : Bool := false
  raisedValueError : Bool := false
deriving Repr, DecidableEq

/-- order_agent._apply_order_changes: apply each truthy change in order
(customer_name, customer_company, then the delivery date, then product,
quantity and unit on order_lines[0] when a line exists).  A changed date
that fails validation returns the error dict; one that passes reaches
order_state.delivery_date = changes, which raises an uncaught ValueError
(no such pydantic field), so the line-change block never runs on that
path. -/
def applyOrderChanges (today : Date) (found : List PartMatch)
    (ch : OrderChanges) (s0 : OrderState) : ChangesResult :=
  let (s1, a1) := if truthyS ch.customer_name
    then ({ s0 with customer_name := ch.customer_name }, true) else (s0, false)
  let (s2, a2) := if truthyS ch.customer_company
    then ({ s1 with customer_company := ch.customer_company }, true) else (s1, a1)
  match ch.delivery_date, truthyS ch.delivery_date with
  | some dd, true =>
    (match validateDeliveryDateStr dd today with
     | some err => { state := s2, error := some err, applied := a2 }
     | none => { state := s2, applied := a2, raisedValueError := true })
  | _, _ => applyLineChanges s2 a2
where
  /-- The order_lines[0] portion of _apply_order_changes: a product change
  is applied only when semantic search returns a match; quantity and unit
  are copied when truthy. -/
  applyLineChanges (s : OrderState) (a : Bool) : ChangesResult :=
    if s.order_lines.isEmpty then { state := s, applied := a }
    else
      let setProd : PartMatch → OrderLine → OrderLine := fun best l =>
        { l with product_name := some best.description,
                 partnum := some best.partnum }
      let (s3, a3) :=
        match truthyS ch.product_name, found with
        | true, best :: _ =>
          ({ s with order_lines := updateHead (setProd best) s.order_lines }, true)
        | _, _ => (s, a)
      let setQty : OrderLine → OrderLine := fun l => { l with quantity := ch.quantity }
      let (s4, a4) := if truthyI ch.quantity
        then ({ s3 with order_lines := updateHead setQty s3.order_lines }, true)
        else (s3, a3)
      let setUnit : OrderLine → OrderLine := fun l => { l with unit := ch.unit }
      if truthyS ch.unit
        then { state := { s4 with order_lines := updateHead setUnit s4.order_lines },
               applied := true }
        else { state := s4, applied := a4 }

/-! ## Confirmation sub-handler (_handle_confirmation_response) -/

/-- The four outcomes of the confirmation sub-handler dispatch. -/
inductive ConfirmAction
  | confirm
  | cancel
  | edit
  | unclear
deriving Repr, DecidableEq

/-- Confirmation keywords of _handle_confirmation_response. -/
def confirmWords : List String :=
  ["ya", "konfirmasi", "yes", "ok", "oke", "benar", "betul"]

/-- Cancellation keywords of _handle_confirmation_response. -/
def cancelWords : List String :=
  ["batal", "cancel", "stop", "gak jadi", "tidak jadi"]

/-- Edit keywords of _handle_confirmation_response (order_agent.py;
orches_2.py uses the same six, orchestrator.py the first four). -/
def editWords : List String :=
  ["ubah", "edit", "ganti", "salah", "change", "modify"]

/-- Boundary match of a confirm keyword: the lower-cased stripped reply
equals the word, starts with the word plus a space, or ends with a space
plus the word. -/
def isConfirmInput (userInput : String) : Bool :=
  confirmWords.any fun w =>
    userInput == w || strStarts userInput (w ++ " ") ||
      strEnds userInput (" " ++ w)

/-- Keyword dispatch of _handle_confirmation_response, in the order the
source checks them: confirm first, then cancel, then edit, else unclear
(both order_agent.py and the orchestrators use this same order). -/
def confirmationAction (userMessage : String) : ConfirmAction :=
  let userInput := strTrim (strLower userMessage)
  if isConfirmInput userInput then .confirm
  else if cancelWords.any (fun w => strContains userInput w) then .cancel
  else if editWords.any (fun w => strContains userInput w) then .edit
  else .unclear

/-! ## Persistence and finalization (_save_order_to_database,
_complete_order, confirm_and_complete_order) -/

/-- Outcome of the database round trip inside _save_order_to_database:
either the count query and insert succeed (carrying the number of existing
orders with today's prefix) or some step raises. -/
inductive DbOutcome
  | ok (todayCount : Nat)
  | fail
deriving Repr, DecidableEq

/-- Observable result of _save_order_to_database: the returned order id
and which of commit, rollback and close ran. -/
structure SaveResult where
  orderId : String
  committed : Bool
  rolledBack : Bool
  closed : Bool
deriving Repr, DecidableEq

/-- _save_order_to_database (identical in order_agent.py and both
orchestrators): on success the id is ORD-date-sequence with the daily
sequence count+1 zero-padded to four digits; on any exception the
transaction is rolled back and the placeholder ORD-date-TEMP is returned;
the session is closed in both cases and no exception escapes. -/
def saveOrderToDatabase (db : DbOutcome) (dateStr : String) : SaveResult :=
  match db with
  | .ok n =>
    { orderId := "ORD-" ++ dateStr ++ "-" ++ pad4 (n + 1),
      committed := true, rolledBack := false, closed := true }
  | .fail =>
    { orderId := "ORD-" ++ dateStr ++ "-TEMP",
      committed := false, rolledBack := true, closed := true }

/-- Observable behavior of order_agent._complete_order: the result of the
save call, whether mark_order_completed and reset_order_state ran, the
receipt string (none when the call raised before returning one), and the
name of the uncaught exception when the call raised. -/
structure CompletionResult where
  saveResult : SaveResult
  markedCompleted : Bool
  resetOrder : Bool
  receipt : Option String
  raisedExc : Option String
deriving Repr, DecidableEq

/-- order_agent._complete_order: persist (or fall back to the TEMP id),
mark the stored order completed and reset the aggregate — all of which
run — then build the receipt.  line = order_state.order_lines[0] raises
IndexError on an empty list; otherwise both language branches of the
receipt f-string read order_state.delivery_date, an attribute no pydantic
v2 OrderState carries, so the read raises an uncaught AttributeError.
Either way the call raises after its side effects and no receipt string is
ever returned to the user. -/
def completeOrder (db : DbOutcome) (dateStr : String) (s : OrderState)
    (_language : String) : CompletionResult :=
  { saveResult := saveOrderToDatabase db dateStr,
    markedCompleted := true,
    resetOrder := true,
    receipt := none,
    raisedExc :=
      some (if s.order_lines.isEmpty then "IndexError" else "AttributeError") }

/-- Observable result of Orchestrator.confirm_and_complete_order: the
response text, whether the record was persisted, the conversation marked
completed, and the aggregate reset, plus the uncaught exception when the
call raised instead of returning (the response component is then empty:
no string was produced). -/
structure CompleteResult where
  response : String
  savedOrder : Bool
  markedCompleted : Bool
  resetOrder : Bool
  raisedExc : Option String := none
deriving Repr, DecidableEq

/-- Orchestrator.confirm_and_complete_order (orchestrator.py): when the
stored aggregate is not complete, return the order-incomplete message and
perform no persistence, marking or reset.  Otherwise save, mark and reset
all run, then order_line = order_state.order_lines[0] (IndexError on an
empty list) and the receipt f-string reads the undeclared
order_state.delivery_date (AttributeError): the call raises after its side
effects and no confirmation string is returned. -/
def confirmAndCompleteOrder (s : OrderState) (db : DbOutcome)
    (dateStr : String) : CompleteResult :=
  if !s.is_complete then
    { response := "Pesanan belum lengkap. Mohon lengkapi informasi yang diperlukan.",
      savedOrder := false, markedCompleted := false, resetOrder := false }
  else
    let _orderId := (saveOrderToDatabase db dateStr).orderId
    { response := "",
      savedOrder := true, markedCompleted := true, resetOrder := true,
      raisedExc :=
        some (if s.order_lines.isEmpty then "IndexError" else "AttributeError") }

/-! ## Intent classification (src/core/intent_classifier.py) -/

/-- Outcome of the LLM call and JSON decoding inside _parse_llm_response:
a decoded JSON object (with its optional intent key), a JSONDecodeError
with the raw text, or any other exception. -/
inductive LlmOutcome
  | json (intentField : Option String)
  | decodeError (text : String)
  | otherError
deriving Repr, DecidableEq

/-- The valid_intents whitelist of _parse_llm_response. -/
def validIntents : List String := ["ORDER", "CANCEL_ORDER", "FALLBACK"]

/-- The six intents named by the specification. -/
def sixIntents : List String :=
  ["ORDER", "CANCEL_ORDER", "CHIT_CHAT", "HUMAN_HANDOFF", "FALLBACK", "UNKNOWN"]

/-- _extract_intent_from_text: keyword fallback over the lower-cased raw
response. -/
def extractIntentFromText (text : String) : String :=
  let tl := strLower text
  if ["order", "pesan", "beli"].any (fun w => strContains tl w) then "ORDER"
  else if ["cancel", "batal", "stop"].any (fun w => strContains tl w) then
    "CANCEL_ORDER"
  else if ["fallback", "redirect", "other"].any (fun w => strContains tl w) then
    "FALLBACK"
  else "UNKNOWN"

/-- Intent component of _parse_llm_response: upper-case the decoded intent
field (default UNKNOWN), demote anything outside valid_intents to UNKNOWN;
on a JSON decode error fall back to text extraction; on any other
exception return UNKNOWN. -/
def parseLlmIntent : LlmOutcome → String
  | .json f =>
    let i := strUpper (f.getD "UNKNOWN")
    if i ∈ validIntents then i else "UNKNOWN"
  | .decodeError t => extractIntentFromText t
  | .otherError => "UNKNOWN"

/-- classify_and_extract: the parsed intent on success, FALLBACK when the
LLM call itself raises (modelled by none). -/
def classifyIntent : Option LlmOutcome → String
  | some o => parseLlmIntent o
  | none => "FALLBACK"

/-! ## Session routing (orches_2.Orchestrator.handle_message and
src/core/orchestrator.Orchestrator.handle_message) -/

/-- Conversation-scoped flags of the orchestrators.  orchestrator.py has
no handoff flag; its router simply never reads that component. -/
structure RouterFlags where
  awaiting_resume_response : Bool
  awaiting_order_confirmation : Bool
  awaiting_human_handoff : Bool
deriving Repr, DecidableEq

/-- The branch of handle_message that produces the reply. -/
inductive Route
  | resume
  | humanHandoff
  | postHandoff
  | confirmation
  | chitChat
  | redirect
  | cancelOrder
  | completedInfo
  | orderFlow
deriving Repr, DecidableEq

/-- Results of the sub-handlers whose internals are modelled separately
(confirmationAction, applyEntities, applyOrderChanges, completeOrder):
each carries the stored aggregate after the branch and, where the branch
can change it, the awaiting flag it leaves behind. -/
structure SubHandlers where
  resumeResult : OrderState
  postHandoffResult : OrderState
  postHandoffFlag : Bool
  confirmationResult : OrderState
  confirmationFlag : Bool
  orderFlowResult : OrderState
deriving Repr, DecidableEq

/-- Decision tree of orches_2.Orchestrator.handle_message, steps 4-11,
after intent classification: resume flow, explicit HUMAN_HANDOFF, ongoing
handoff, ready confirmation (with the stale-flag elif that clears the
confirmation flag), CHIT_CHAT courtesy reply, strict redirection of
FALLBACK and UNKNOWN, cancellation, completed-order guard, and the order
flow.  Returns the branch taken, the stored aggregate afterwards, and the
flags afterwards. -/
def handleMessageO2 (flags : RouterFlags) (intent : String) (s : OrderState)
    (_hasPreviousOrders : Bool) (sub : SubHandlers) :
    Route × OrderState × RouterFlags :=
  if flags.awaiting_resume_response then
    (.resume, sub.resumeResult, { flags with awaiting_resume_response := false })
  else if intent == "HUMAN_HANDOFF" then
    (.humanHandoff, s, { flags with awaiting_human_handoff := true })
  else if flags.awaiting_human_handoff then
    (.postHandoff, sub.postHandoffResult,
      { flags with awaiting_human_handoff := sub.postHandoffFlag })
  else if flags.awaiting_order_confirmation && s.is_complete &&
          s.order_status == "in_progress" then
    (.confirmation, sub.confirmationResult,
      { flags with awaiting_order_confirmation := sub.confirmationFlag })
  else
    let flags1 := { flags with awaiting_order_confirmation := false }
    if intent == "CHIT_CHAT" then
      (.chitChat, s, flags1)
    else if intent != "ORDER" && intent != "CANCEL_ORDER" then
      (.redirect, s, flags1)
    else if intent == "CANCEL_ORDER" then
      if s.order_status == "in_progress" then
        (.cancelOrder, OrderState.init, flags1)
      else
        (.cancelOrder, s, flags1)
    else if s.order_status == "completed" then
      (.completedInfo, s, flags1)
    else
      let s10 := sub.orderFlowResult.updateMissingFields
      if s10.is_complete && s10.order_status == "in_progress" then
        (.orderFlow, s10, { flags1 with awaiting_order_confirmation := true })
      else
        (.orderFlow, s10, flags1)

/-- Decision tree of src/core/orchestrator.Orchestrator.handle_message,
steps 4-10: as above but with no handoff handling, and with the
cancellation branch checking previous completed orders before the
in-progress reset. -/
def handleMessageV1 (flags : RouterFlags) (intent : String) (s : OrderState)
    (hasPreviousOrders : Bool) (sub : SubHandlers) :
    Route × OrderState × RouterFlags :=
  if flags.awaiting_resume_response then
    (.resume, sub.resumeResult, { flags with awaiting_resume_response := false })
  else if flags.awaiting_order_confirmation && s.is_complete &&
          s.order_status == "in_progress" then
    (.confirmation, sub.confirmationResult,
      { flags with awaiting_order_confirmation := sub.confirmationFlag })
  else
    let flags1 := { flags with awaiting_order_confirmation := false }
    if intent == "CHIT_CHAT" then
      (.chitChat, s, flags1)
    else if intent != "ORDER" && intent != "CANCEL_ORDER" then
      (.redirect, s, flags1)
    else if intent == "CANCEL_ORDER" then
      if hasPreviousOrders then
        (.cancelOrder, s, flags1)
      else if s.order_status == "in_progress" then
        (.cancelOrder, OrderState.init, flags1)
      else
        (.cancelOrder, s, flags1)
    else if s.order_status == "completed" then
      (.completedInfo, s, flags1)
    else
      let s10 := sub.orderFlowResult.updateMissingFields
      if s10.is_complete && s10.order_status == "in_progress" then
        (.orderFlow, s10, { flags1 with awaiting_order_confirmation := true })
      else
        (.orderFlow, s10, flags1)

/-! ## Concrete scenario values used by counterexamples and witnesses -/

/-- Aggregate with a fully collected first line and a second line missing
only its quantity, so the first line-level missing entry points at line 1. -/
def c3Base : OrderState :=
  { customer_name := some "Budi",
    customer_company := some "PT Samator",
    order_lines :=
      [⟨some "P-100", some "Oksigen 6m3", some 3, some "tabung", some "2026-10-14"⟩,
       ⟨none, some "Nitrogen cair", none, some "m3", some "2026-10-14"⟩],
    order_status := "in_progress" }

/-- The recomputed form of c3Base, as the agents hold it between turns. -/
def c3State : OrderState := c3Base.updateMissingFields

/-- A vague reply carrying only a quantity, no product mention. -/
def c3Entities : ExtractedEntities := { quantity := some 5 }

/-- Aggregate whose only line already holds a resolved product. -/
def c4State : OrderState :=
  { order_lines := [⟨some "P-100", some "Oksigen 6m3", some 3, some "tabung", none⟩] }

/-- Entities naming a different product than the existing line. -/
def c4Entities : ExtractedEntities := { product_name := some "nitrogen cair" }

/-- Search match for the new product, with a catalog key matching no line. -/
def c4Match : PartMatch := ⟨"P-200", "NITROGEN CAIR", some "m3", none⟩

/-- A populated aggregate used to exercise the serialization round trip. -/
def c9Sample : OrderState :=
  { customer_name := some "Budi",
    order_lines := [⟨some "P-1", some "Oksigen", some 2, some "tabung", some "2026-10-14"⟩],
    is_complete := false,
    missing_fields := [⟨none, "customer_company"⟩, ⟨some 0, "quantity"⟩],
    order_status := "in_progress" }

/-- Sub-handler results that leave everything at the fresh state, for
concrete router evaluations. -/
def subInit : SubHandlers :=
  ⟨OrderState.init, OrderState.init, false, OrderState.init, false, OrderState.init⟩

/-! ## Helper lemmas -/

theorem updateHead_length (f : α → α) (l : List α) :
    (updateHead f l).length = l.length := by
  cases l <;> simp [updateHead]

theorem updateHead_tail (f : α → α) (l : List α) :
    (updateHead f l).tail = l.tail := by
  cases l <;> simp [updateHead]

theorem updateHead_eq_nil (f : α → α) (l : List α) :
    updateHead f l = [] ↔ l = [] := by
  cases l <;> simp [updateHead]

theorem strContains_append_middle (a b c : String) :
    strContains (a ++ b ++ c) b = true := by
  simp only [strContains, decide_eq_true_eq]
  exact ⟨a.data, c.data, by simp [String.data_append]⟩

/-! ## C1: confirmation sub-handler keyword priority -/

/-- C1 counterexample: while AWAITING_CONFIRMATION the reply
"ubah tanggal jadi besok ya" — an edit instruction ending in the
confirmation word ya — is dispatched to the confirm branch, because
_handle_confirmation_response checks the confirm keywords first and the
boundary match accepts a trailing " ya"; it is not delegated to the edit
handler as the claim states. -/
theorem claim1_counterexample :
    confirmationAction "ubah tanggal jadi besok ya" = ConfirmAction.confirm ∧
    ConfirmAction.confirm ≠ ConfirmAction.edit := by
  constructor
  · decide
  · decide

/-- C1 amended: the sub-handler checks confirm-keyword detection BEFORE
edit-keyword detection.  Any reply that boundary-matches a confirm word is
finalized as a confirmation, even when it also contains an edit keyword;
a reply is delegated to the edit handler only when it matches no confirm
word (boundary match) and contains no cancel keyword but contains an edit
keyword. -/
theorem claim1_confirm_checked_first (msg : String) :
    (isConfirmInput (strTrim (strLower msg)) = true →
      confirmationAction msg = ConfirmAction.confirm) ∧
    (isConfirmInput (strTrim (strLower msg)) = false →
      cancelWords.any (fun w => strContains (strTrim (strLower msg)) w) = false →
      editWords.any (fun w => strContains (strTrim (strLower msg)) w) = true →
      confirmationAction msg = ConfirmAction.edit) := by
  constructor
  · intro h
    simp [confirmationAction, h]
  · intro h hc he
    simp [confirmationAction, h, hc, he]

/-- C1 witness: a reply with an edit keyword and no boundary-matched
confirm word is delegated to the edit handler. -/
theorem claim1_witness :
    confirmationAction "tolong ubah tanggalnya" = ConfirmAction.edit :=
  (claim1_confirm_checked_first "tolong ubah tanggalnya").2
    (by decide) (by decide) (by decide)

/-! ## C2: is_complete iff missing_fields empty -/

/-- C2 counterexample: a freshly created aggregate (also the value stored
by reset_order_state) has an empty missing_fields checklist while
is_complete is False, so the equivalence fails on a reachable state. -/
theorem claim2_counterexample :
    OrderState.init.missing_fields = [] ∧
    OrderState.init.is_complete = false := by
  constructor
  · rfl
  · rfl

/-- C2 amended: the equivalence holds after every update_missing_fields
recomputation (run on every entity application, edit and persistence
write) and is preserved by the serialization round trip used to load the
aggregate; it fails only on a freshly created or reset aggregate, which
has is_complete False with an empty checklist. -/
theorem claim2_complete_iff_no_missing (s : OrderState) :
    (s.updateMissingFields.is_complete = true ↔
      s.updateMissingFields.missing_fields = []) ∧
    (fromDict (toDict s)).is_complete = s.is_complete ∧
    (fromDict (toDict s)).missing_fields = s.missing_fields := by
  refine ⟨?_, ?_, ?_⟩
  · simp [OrderState.updateMissingFields, List.isEmpty_iff]
  · simp [toDict, fromDict]
  · simp [toDict, fromDict]

/-- C2 witness: the recomputed equivalence at the fresh state. -/
theorem claim2_witness :
    (OrderState.init.updateMissingFields.is_complete = true ↔
      OrderState.init.updateMissingFields.missing_fields = []) :=
  (claim2_complete_iff_no_missing OrderState.init).1

/-! ## C4: entity resolver never appends for a new product -/

/-- C4 counterexample: with line 0 already holding product P-100 and the
search resolving a genuinely new product P-200 (different catalog key and
name), _resolve_product overwrites line 0 with the new product and appends
nothing: the line count stays 1 and the existing line's product data is
replaced. -/
theorem claim4_counterexample :
    (resolveProduct c4Entities [c4Match] c4State).order_lines.length = 1 ∧
    ((resolveProduct c4Entities [c4Match] c4State).order_lines.getD 0 {}).product_name
      = some "NITROGEN CAIR" ∧
    ((resolveProduct c4Entities [c4Match] c4State).order_lines.getD 0 {}).partnum
      = some "P-200" := by
  refine ⟨?_, ?_, ?_⟩ <;> decide

/-- C4 amended: _resolve_product always targets line 0: it appends a line
only when order_lines is empty, never creates a second line, leaves every
line after the first unchanged, and writes the best match's description
and catalog key over whatever line 0 held. -/
theorem claim4_resolver_overwrites_line0 (e : ExtractedEntities)
    (best : PartMatch) (rest : List PartMatch) (s : OrderState) :
    (resolveProduct e (best :: rest) s).order_lines.length
      = max 1 s.order_lines.length ∧
    (resolveProduct e (best :: rest) s).order_lines.tail = s.order_lines.tail ∧
    ((resolveProduct e (best :: rest) s).order_lines.headD {}).product_name
      = some best.description ∧
    ((resolveProduct e (best :: rest) s).order_lines.headD {}).partnum
      = some best.partnum := by
  rcases hls : s.order_lines with _ | ⟨l0, ls⟩ <;>
    simp [resolveProduct, hls, updateHead] <;> split_ifs <;>
      simp [updateHead, Nat.max_eq_left, Nat.le_add_left]

/-! ## C9: serialization round trip -/

/-- C9: for every aggregate value representable by the pydantic model
(which declares no order-level delivery_date attribute, modelled by the
delivery_date component being none), from_dict inverts to_dict: the
injected active_line_index is stripped and the two back-compat migrations
leave a freshly serialized state unchanged. -/
theorem claim9_roundtrip (s : OrderState) (h : s.delivery_date = none) :
    fromDict (toDict s) = s := by
  obtain ⟨i, cn, cc, ol, ic, mf, os, dd⟩ := s
  simp only at h
  subst h
  simp [toDict, fromDict]

/-- C9 witness: the round trip at a populated concrete aggregate. -/
theorem claim9_witness : fromDict (toDict c9Sample) = c9Sample :=
  claim9_roundtrip c9Sample rfl

/-! ## C3: vague-answer routing -/

/-- C3 counterexample: in an aggregate whose ActiveLineIndex is 1 (line 0
complete, line 1 missing its quantity), a bare quantity 5 with no product
mention is written by _apply_entities into line 0 — overwriting its
existing quantity 3 — while the line at ActiveLineIndex keeps its gap. -/
theorem claim3_counterexample :
    c3State.active_line_index = 1 ∧
    ((applyEntities c3Entities [] ⟨2026, 10, 12⟩ c3State).1.order_lines.getD 1 {}).quantity
      = none ∧
    ((applyEntities c3Entities [] ⟨2026, 10, 12⟩ c3State).1.order_lines.getD 0 {}).quantity
      = some 5 ∧
    (c3State.order_lines.getD 0 {}).quantity = some 3 := by
  refine ⟨?_, ?_, ?_, ?_⟩ <;> decide

/-- C3 amended: when the extracted entities carry no product mention, a
bare quantity or unit is applied unconditionally to order line 0 (the head
of order_lines), leaving every other line unchanged regardless of
ActiveLineIndex; and a bare delivery date that passes validation reaches
the assignment to the undeclared order-level delivery_date attribute,
which raises an uncaught ValueError with order_lines untouched — the date
is stored nowhere, in particular never on the line at ActiveLineIndex. -/
theorem claim3_bare_values_target_line0 (today : Date) (s : OrderState) :
    (∀ (e : ExtractedEntities) (found : List PartMatch),
      truthyS e.product_name = false → e.delivery_date = none →
      (applyEntities e found today s).1.order_lines =
        (if s.order_lines.isEmpty then s.order_lines
         else updateHead (fun l =>
           let l1 := if truthyI e.quantity then { l with quantity := e.quantity } else l
           if truthyS e.unit then { l1 with unit := e.unit } else l1) s.order_lines) ∧
      (applyEntities e found today s).1.order_lines.tail = s.order_lines.tail) ∧
    (∀ (e : ExtractedEntities) (found : List PartMatch) (dd : String),
      truthyS e.product_name = false → e.delivery_date = some dd →
      dd.isEmpty = false → validateDeliveryDateStr dd today = none →
      (applyEntities e found today s).2 = ApplyResult.raisedValueError ∧
      (applyEntities e found today s).1.order_lines = s.order_lines) := by
  constructor
  · intro e found hp hd
    constructor
    · simp [applyEntities, hp, hd, applyEntities.applyBareQtyUnit]
      split_ifs with h1 <;> simp_all
    · simp [applyEntities, hp, hd, applyEntities.applyBareQtyUnit]
      split_ifs with h1 <;> simp_all [updateHead_tail]
  · intro e found dd hp hd hne hv
    refine ⟨?_, ?_⟩
    · simp [applyEntities, hp, hd, hne, hv]
    · simp [applyEntities, hp, hd, hne, hv]
      split_ifs <;> simp_all

/-- C3 witness: a bare quantity at the concrete scenario aggregate lands
on line 0 and leaves the tail unchanged. -/
theorem claim3_witness :
    (applyEntities c3Entities [] ⟨2026, 10, 12⟩ c3State).1.order_lines.tail
      = c3State.order_lines.tail :=
  ((claim3_bare_values_target_line0 ⟨2026, 10, 12⟩ c3State).1 c3Entities []
    (by decide) (by decide)).2

/-! ## C6: delivery-date validation -/

/-- C6: _validate_delivery_date rejects any date strictly before today
with a message containing kemarin for one day past, kemarin lusa for two
days past and the numeric day count for any earlier date, and accepts
(returns None for) today and any future date that is not a Sunday. -/
theorem claim6_date_validation (str : String) (delivery today : Date) :
    (dateOrd today - dateOrd delivery = 1 →
      ∃ m, validateDeliveryDate str delivery today = some m ∧
        strContains m "kemarin" = true) ∧
    (dateOrd today - dateOrd delivery = 2 →
      ∃ m, validateDeliveryDate str delivery today = some m ∧
        strContains m "kemarin lusa" = true) ∧
    (∀ k : Int, dateOrd today - dateOrd delivery = k → 2 < k →
      ∃ m, validateDeliveryDate str delivery today = some m ∧
        strContains m (toString k) = true) ∧
    (dateOrd today ≤ dateOrd delivery → pyWeekday delivery ≠ 6 →
      validateDeliveryDate str delivery today = none) := by
  refine ⟨?_, ?_, ?_, ?_⟩
  · intro h
    have h1 : dateOrd delivery < dateOrd today := by omega
    have hmsg : validateDeliveryDate str delivery today =
        some (("Maaf, tanggal " ++ str ++ " itu sudah lewat (") ++ "kemarin" ++
          "). Untuk tanggal berapa ya pengirimannya?") := by
      simp only [validateDeliveryDate]
      rw [if_pos h1, if_pos h]
    exact ⟨_, hmsg, strContains_append_middle _ _ _⟩
  · intro h
    have h1 : dateOrd delivery < dateOrd today := by omega
    have h2 : ¬(dateOrd today - dateOrd delivery = 1) := by omega
    have hmsg : validateDeliveryDate str delivery today =
        some (("Maaf, tanggal " ++ str ++ " itu sudah lewat (") ++ "kemarin lusa" ++
          "). Untuk tanggal berapa ya pengirimannya?") := by
      simp only [validateDeliveryDate]
      rw [if_pos h1, if_neg h2, if_pos h]
    exact ⟨_, hmsg, strContains_append_middle _ _ _⟩
  · intro k hk h
    have h1 : dateOrd delivery < dateOrd today := by omega
    have h2 : ¬(dateOrd today - dateOrd delivery = 1) := by omega
    have h3 : ¬(dateOrd today - dateOrd delivery = 2) := by omega
    have hmsg : validateDeliveryDate str delivery today =
        some (("Maaf, tanggal " ++ str ++ " itu sudah lewat (") ++ toString k ++
          (" hari yang lalu" ++ "). Untuk tanggal berapa ya pengirimannya?")) := by
      simp only [validateDeliveryDate]
      rw [if_pos h1, if_neg h2, if_neg h3, hk]
      congr 1
      apply String.ext
      simp [String.data_append]
    exact ⟨_, hmsg, strContains_append_middle _ _ _⟩
  · intro h h6
    simp only [validateDeliveryDate]
    rw [if_neg (by omega), if_neg h6]

/-- C6 witness: concrete dates around Monday 2026-10-12 exercise all four
branches: yesterday, two days ago, a week ago, and tomorrow (a Tuesday). -/
theorem claim6_witness :
    (∃ m, validateDeliveryDate "2026-10-11" ⟨2026, 10, 11⟩ ⟨2026, 10, 12⟩ = some m ∧
      strContains m "kemarin" = true) ∧
    (∃ m, validateDeliveryDate "2026-10-10" ⟨2026, 10, 10⟩ ⟨2026, 10, 12⟩ = some m ∧
      strContains m "kemarin lusa" = true) ∧
    (∃ m, validateDeliveryDate "2026-10-05" ⟨2026, 10, 5⟩ ⟨2026, 10, 12⟩ = some m ∧
      strContains m (toString (7 : Int)) = true) ∧
    validateDeliveryDate "2026-10-13" ⟨2026, 10, 13⟩ ⟨2026, 10, 12⟩ = none :=
  ⟨(claim6_date_validation "2026-10-11" ⟨2026, 10, 11⟩ ⟨2026, 10, 12⟩).1 (by decide),
   (claim6_date_validation "2026-10-10" ⟨2026, 10, 10⟩ ⟨2026, 10, 12⟩).2.1 (by decide),
   (claim6_date_validation "2026-10-05" ⟨2026, 10, 5⟩ ⟨2026, 10, 12⟩).2.2.1 7
     (by decide) (by decide),
   (claim6_date_validation "2026-10-13" ⟨2026, 10, 13⟩ ⟨2026, 10, 12⟩).2.2.2
     (by decide) (by decide)⟩

/-! ## C7: order_lines never empty -/

/-- C7: a freshly constructed or reset aggregate already contains one
(empty) line; _resolve_product guarantees a line exists before writing
product data (appending when order_lines is empty); _apply_entities,
_apply_order_changes and update_missing_fields never remove lines, so
every reachable aggregate keeps a non-empty order_lines. -/
theorem claim7_lines_nonempty :
    OrderState.init.order_lines = [({} : OrderLine)] ∧
    (∀ (e : ExtractedEntities) (found : List PartMatch) (s : OrderState),
      (resolveProduct e found s).order_lines ≠ []) ∧
    (∀ (e : ExtractedEntities) (found : List PartMatch) (today : Date)
       (s : OrderState), s.order_lines ≠ [] →
      (applyEntities e found today s).1.order_lines ≠ []) ∧
    (∀ (today : Date) (found : List PartMatch) (ch : OrderChanges)
       (s : OrderState), s.order_lines ≠ [] →
      (applyOrderChanges today found ch s).state.order_lines ≠ []) ∧
    (∀ s : OrderState, s.updateMissingFields.order_lines = s.order_lines) := by
  have hresolve : ∀ (e : ExtractedEntities) (found : List PartMatch)
      (s : OrderState), (resolveProduct e found s).order_lines ≠ [] := by
    intro e found s
    rcases hls : s.order_lines with _ | ⟨l0, ls⟩ <;>
      rcases found with _ | ⟨best, more⟩ <;>
        simp [resolveProduct, hls, updateHead] <;>
          split_ifs <;> simp [updateHead]
  have hbare : ∀ (e : ExtractedEntities) (s : OrderState),
      s.order_lines ≠ [] →
      (applyEntities.applyBareQtyUnit e s).1.order_lines ≠ [] := by
    intro e s hs
    simp only [applyEntities.applyBareQtyUnit]
    split_ifs <;> simp [updateHead_eq_nil, hs]
  have hbareLines : ∀ (e : ExtractedEntities) (s : OrderState),
      s.order_lines ≠ [] →
      (applyEntities.applyBareQtyUnit e s).1.order_lines ≠ [] := hbare
  refine ⟨rfl, hresolve, ?_, ?_, ?_⟩
  · intro e found today s hs
    have h1 : (if truthyS e.product_name then resolveProduct e found s
        else s).order_lines ≠ [] := by
      split_ifs with hp
      · exact hresolve e found s
      · exact hs
    rcases hdd : e.delivery_date with _ | dd
    · simp only [applyEntities, hdd]
      apply hbareLines
      split_ifs <;> simp_all
    · simp only [applyEntities, hdd]
      by_cases hdd2 : dd.isEmpty = true
      · rw [if_pos hdd2]
        apply hbareLines
        split_ifs <;> simp_all
      · rw [if_neg hdd2]
        rcases hv : validateDeliveryDateStr dd today with _ | err <;>
          simp only [hv] <;> split_ifs <;> simp_all
  · intro today found ch s hs
    have hline : ∀ (s2 : OrderState) (a : Bool), s2.order_lines ≠ [] →
        (applyOrderChanges.applyLineChanges found ch s2 a).state.order_lines
          ≠ [] := by
      intro s2 a hs2
      simp only [applyOrderChanges.applyLineChanges]
      rcases htr : truthyS ch.product_name with _ | _ <;>
        (try simp only [htr]) <;>
          rcases found with _ | ⟨best, more⟩ <;>
            split_ifs <;> simp_all [updateHead_eq_nil]
    rcases hdd : ch.delivery_date with _ | dd
    · simp only [applyOrderChanges, hdd]
      apply hline
      split_ifs <;> simp_all
    · simp only [applyOrderChanges, hdd]
      rcases htr2 : truthyS (some dd) with _ | _ <;> simp only [htr2]
      · apply hline
        split_ifs <;> simp_all
      · rcases hv : validateDeliveryDateStr dd today with _ | err <;>
          simp only [hv] <;> split_ifs <;> simp_all
  · intro s
    rfl

/-- C7 witness: concrete evaluations with a non-empty starting line list. -/
theorem claim7_witness :
    (applyEntities {} [] ⟨2026, 10, 12⟩ OrderState.init).1.order_lines ≠ [] ∧
    (applyOrderChanges ⟨2026, 10, 12⟩ [] {} OrderState.init).state.order_lines ≠ [] :=
  ⟨claim7_lines_nonempty.2.2.1 {} [] ⟨2026, 10, 12⟩ OrderState.init (by decide),
   claim7_lines_nonempty.2.2.2.1 ⟨2026, 10, 12⟩ [] {} OrderState.init (by decide)⟩

/-! ## C8: persistence failure during finalization -/

/-- C8: the catch inside _save_order_to_database behaves as the claim
says — the transaction is rolled back, the session closed, and the
placeholder id ORD-date-TEMP returned in place of a sequence number — but
the receipt part of the claim fails: _complete_order runs its side
effects and then raises an uncaught AttributeError reading the undeclared
order_state.delivery_date in the receipt f-string (IndexError first when
order_lines is empty), so no completion receipt is ever returned and the
exception terminates the turn. -/
theorem claim8_failure_rollback (dateStr : String) (s : OrderState)
    (lang : String) :
    saveOrderToDatabase .fail dateStr =
      { orderId := "ORD-" ++ dateStr ++ "-TEMP",
        committed := false, rolledBack := true, closed := true } ∧
    (completeOrder .fail dateStr s lang).saveResult =
      saveOrderToDatabase .fail dateStr ∧
    (completeOrder .fail dateStr s lang).markedCompleted = true ∧
    (completeOrder .fail dateStr s lang).resetOrder = true ∧
    (completeOrder .fail dateStr s lang).receipt = none ∧
    (s.order_lines ≠ [] →
      (completeOrder .fail dateStr s lang).raisedExc = some "AttributeError") := by
  refine ⟨rfl, rfl, rfl, rfl, rfl, ?_⟩
  intro h
  simp [completeOrder, h]

/-- C8 witness: the failed save at a concrete date and aggregate — the
rollback and TEMP id occur, but the call raises instead of returning the
receipt. -/
theorem claim8_witness :
    (completeOrder .fail "20261012" OrderState.init "id").receipt = none ∧
    (completeOrder .fail "20261012" OrderState.init "id").raisedExc =
      some "AttributeError" :=
  ⟨(claim8_failure_rollback "20261012" OrderState.init "id").2.2.2.2.1,
   (claim8_failure_rollback "20261012" OrderState.init "id").2.2.2.2.2 (by decide)⟩

/-! ## C5: intent range and CHIT_CHAT routing -/

/-- C5: every value the intent classifier can return lies in the
six-member set (its actual range is the subset ORDER, CANCEL_ORDER,
FALLBACK, UNKNOWN), and whenever no override flag applies, a message
classified CHIT_CHAT takes the courtesy branch of handle_message and the
stored aggregate is returned unchanged — it is neither redirected nor
mutated. -/
theorem claim5_chitchat_routing :
    (∀ r : Option LlmOutcome, classifyIntent r ∈ sixIntents) ∧
    (∀ (flags : RouterFlags) (s : OrderState) (hasPrev : Bool)
       (sub : SubHandlers),
      flags.awaiting_resume_response = false →
      flags.awaiting_human_handoff = false →
      ¬(flags.awaiting_order_confirmation = true ∧ s.is_complete = true ∧
        s.order_status = "in_progress") →
      handleMessageO2 flags "CHIT_CHAT" s hasPrev sub =
        (Route.chitChat, s,
          { flags with awaiting_order_confirmation := false })) := by
  constructor
  · intro r
    rcases r with _ | o
    · decide
    rcases o with f | t | _
    · simp only [classifyIntent, parseLlmIntent]
      split_ifs with h
      · simp only [validIntents, List.mem_cons, List.not_mem_nil, or_false] at h
        rcases h with h | h | h <;> rw [h] <;> decide
      · decide
    · simp only [classifyIntent, parseLlmIntent, extractIntentFromText]
      split_ifs <;> decide
    · decide
  · intro flags s hasPrev sub hr hh hc
    have hcond : (flags.awaiting_order_confirmation && s.is_complete &&
        (s.order_status == "in_progress")) = false := by
      rcases hA : flags.awaiting_order_confirmation with _ | _
      · simp
      rcases hB : s.is_complete with _ | _
      · simp
      rcases hC : s.order_status == "in_progress" with _ | _
      · simp [hC]
      · exact absurd ⟨hA, hB, by simpa using hC⟩ hc
    simp [handleMessageO2, hr, hh, hcond]

/-- C5 witness: a concrete CHIT_CHAT message with no flags set is routed
to the courtesy branch with the aggregate untouched, and a concrete
classifier outcome lies in the six-member set. -/
theorem claim5_witness :
    classifyIntent (some (.json (some "order"))) ∈ sixIntents ∧
    handleMessageO2 ⟨false, false, false⟩ "CHIT_CHAT" OrderState.init false subInit =
      (Route.chitChat, OrderState.init, ⟨false, false, false⟩) :=
  ⟨claim5_chitchat_routing.1 (some (.json (some "order"))),
   claim5_chitchat_routing.2 ⟨false, false, false⟩ OrderState.init false subInit
     rfl rfl (by decide)⟩

/-! ## C10: no finalization while incomplete -/

/-- C10: when the awaiting-order-confirmation flag is set but the stored
aggregate is not both complete and in progress, handle_message clears the
flag and the message is routed by intent, never through the confirmation
sub-handler (the flag can only come back via a newly complete order flow);
and confirm_and_complete_order on an incomplete aggregate returns the
order-incomplete message without persisting, marking or resetting. -/
theorem claim10_no_incomplete_finalize :
    (∀ (flags : RouterFlags) (intent : String) (s : OrderState)
       (hasPrev : Bool) (sub : SubHandlers),
      flags.awaiting_resume_response = false →
      flags.awaiting_order_confirmation = true →
      ¬(s.is_complete = true ∧ s.order_status = "in_progress") →
      (handleMessageV1 flags intent s hasPrev sub).1 ≠ Route.confirmation ∧
      ((handleMessageV1 flags intent s hasPrev sub).1 ≠ Route.orderFlow →
        (handleMessageV1 flags intent s hasPrev sub).2.2.awaiting_order_confirmation
          = false)) ∧
    (∀ (s : OrderState) (db : DbOutcome) (dateStr : String),
      s.is_complete = false →
      confirmAndCompleteOrder s db dateStr =
        { response := "Pesanan belum lengkap. Mohon lengkapi informasi yang diperlukan.",
          savedOrder := false, markedCompleted := false, resetOrder := false }) := by
  constructor
  · intro flags intent s hasPrev sub hr hconf hc
    have hcond : (flags.awaiting_order_confirmation && s.is_complete &&
        (s.order_status == "in_progress")) = false := by
      rcases hB : s.is_complete with _ | _
      · simp
      rcases hC : s.order_status == "in_progress" with _ | _
      · simp [hC]
      · exact absurd ⟨hB, by simpa using hC⟩ hc
    simp only [handleMessageV1, hr, hcond]
    simp only [Bool.false_eq_true, if_false]
    split_ifs <;> simp
  · intro s db dateStr h
    simp [confirmAndCompleteOrder, h]

/-- C10 witness: a stale confirmation flag over the fresh (incomplete)
aggregate is cleared and not routed to the confirmation sub-handler, and
confirm_and_complete_order refuses to persist the fresh aggregate. -/
theorem claim10_witness :
    (handleMessageV1 ⟨false, true, false⟩ "ORDER" OrderState.init false subInit).1
      ≠ Route.confirmation ∧
    (confirmAndCompleteOrder OrderState.init (.ok 0) "20261012").savedOrder = false := by
  constructor
  · exact (claim10_no_incomplete_finalize.1 ⟨false, true, false⟩ "ORDER"
      OrderState.init false subInit rfl rfl (by decide)).1
  · rw [claim10_no_incomplete_finalize.2 OrderState.init (.ok 0) "20261012" rfl]

end Samator
